import Mathlib

/-!
Verification development for the schema-derivation engine of
src/graphQL/createSchema.js.

The JavaScript source is shallowly embedded as executable Lean definitions:
- GraphQL type values (scalars, object types, input object types, list and
  non-null wrappers) become the inductive `GType`; object types are the
  structure `GObject`, whose lazy field thunk is represented by the data
  `FieldsSpec` and forced by `getFields` against a registry supplied at
  evaluation time (mirroring the closure over the mutable `typeSets`
  variable in the source).
- The immutable.js map of TypeSets becomes an association list `Registry`
  with `lookupTS` and `setTS` (set replaces an existing key in place and
  appends a new key, as immutable.js Map.set does).
- JavaScript exceptions (TypeError on property access or destructuring of
  undefined) become `Except String` results, propagated left-to-right by
  the explicit combinator `eMapM`, matching the first-throw-wins behavior
  of a map over an immutable collection.

Functions whose source is not under src/ (connections.js, builtIns.js,
createRootFieldsForTypes.js) are modelled from the spec and marked so in
their doc comments; no claim depends on more of their behavior than the
spec states.
-/

namespace ReindexSchema

/-- One field descriptor of the database metadata (spec section 3,
FieldMetadata). Absent optional keys of the source Immutable.Map are
`none`; an absent boolean reads as undefined in JS, which is falsy, so it
is modelled as `false`. -/
structure FieldMetadata where
  name : String
  type : String
  isRequired : Bool := false
  isDeprecated : Bool := false
  target : Option String := none
  reverseName : Option String := none
deriving DecidableEq, Repr

/-- One record-type descriptor of the database metadata (spec section 3,
TypeMetadata). -/
structure TypeMetadata where
  name : String
  fields : List FieldMetadata
deriving DecidableEq, Repr

/-- The data of a lazy GraphQL field-map thunk. `fromMetadata` is the thunk
built by `createType` in the source (forced through `createField` against
the registry current at evaluation time); `mutationFieldsOf` is the
two-field map built by `createMutation`; `connectionOf` stands for the
edges/pageInfo field map of a connection type built by the external
connections module; `externalFields` stands for the field map of an
externally supplied common/built-in type. -/
inductive FieldsSpec where
  | fromMetadata (fields : List FieldMetadata)
  | mutationFieldsOf (typeName : String)
  | connectionOf (typeName : String)
  | externalFields (tag : String)
deriving DecidableEq, Repr

/-- A GraphQLObjectType value: its name, the names of the interfaces it
declares, and the data of its (lazy) field map. -/
structure GObject where
  name : String
  interfaces : List String
  fieldsSpec : FieldsSpec
deriving DecidableEq, Repr

/-- A GraphQL type value as used by createSchema.js: scalar types, object
types, input object types (by name - no evaluated flow in this file ever
places an input object inside another type), and the GraphQLList /
GraphQLNonNull wrappers. -/
inductive GType where
  | scalar (name : String)
  | object (obj : GObject)
  | inputObjectRef (name : String)
  | list (ofType : GType)
  | nonNull (ofType : GType)
deriving DecidableEq, Repr

/-- A compiled field definition as returned by `createField`: the source
also attaches a resolve closure for the connection and reference branches;
only its presence is observable at schema-construction time, so it is
modelled by the flag `hasResolve`. -/
structure GField where
  name : String
  type : GType
  args : List (String × GType)
  hasResolve : Bool
  isDeprecated : Bool
deriving DecidableEq, Repr

/-- A GraphQLInputObjectType with its (eagerly computed) input fields. -/
structure GInputObject where
  name : String
  fields : List (String × GType)
deriving DecidableEq, Repr

/-- The TypeSet record of the source: the object type plus the derived
connection, input object and mutation types (undefined until built). -/
structure TypeSet where
  type : GObject
  connection : Option GObject := none
  inputObject : Option GInputObject := none
  mutation : Option GObject := none
deriving DecidableEq, Repr

/-- The generic interface capabilities supplied by builtIns.js, identified
by name (the source compares them by object identity; each is a single
global value, so name equality is a faithful rendering). -/
structure Interfaces where
  Connection : String
  Mutation : String
deriving DecidableEq, Repr

/-- Modelled from the spec: src/graphQL/builtIns.js is not under src/. The
spec (section 1) says a generic Connection interface and a generic
Mutation interface are supplied as pre-built capabilities. -/
def createInterfaces : Interfaces :=
  { Connection := "Connection", Mutation := "Mutation" }

/-- The registry: the immutable.js Map from type name to TypeSet, as an
association list in insertion order. -/
abbrev Registry := List (String × TypeSet)

/-- Map lookup (immutable.js Map.get). -/
def lookupTS (reg : Registry) (name : String) : Option TypeSet :=
  (reg.find? (fun p => p.1 == name)).map (fun p => p.2)

/-- Map update (immutable.js Map.set): replace an existing key in place,
otherwise append in insertion order. -/
def setTS (reg : Registry) (name : String) (ts : TypeSet) : Registry :=
  if reg.any (fun p => p.1 == name) then
    reg.map (fun p => if p.1 == name then (name, ts) else p)
  else
    reg ++ [(name, ts)]

/-- Whether an Except-valued computation finished without a thrown error. -/
def isOkResult {α : Type} : Except String α → Bool
  | .ok _ => true
  | .error _ => false

/-- Left-to-right effectful map over a list: the first thrown error aborts
the whole traversal, as a JS map does when a callback throws. -/
def eMapM {α β : Type} (g : α → Except String β) : List α → Except String (List β)
  | [] => .ok []
  | a :: l =>
    match g a with
    | .error e => .error e
    | .ok b =>
      match eMapM g l with
      | .error e => .error e
      | .ok bs => .ok (b :: bs)

/-- The PRIMITIVE_TYPE_MAP of the source (lines 106-113): scalar kind name
to pre-built scalar type. -/
def PRIMITIVE_TYPE_MAP : List (String × GType) :=
  [("id", .scalar "ID"),
   ("string", .scalar "String"),
   ("integer", .scalar "Int"),
   ("number", .scalar "Float"),
   ("boolean", .scalar "Boolean"),
   ("datetime", .scalar "DateTime")]

/-- Modelled from the spec: src/graphQL/connections.js is not under src/.
Spec section 6 fixes a four-argument cursor-pagination shape per connection
field - forward cursor, backward cursor, forward page size, backward page
size (cursor-after, cursor-before, count-first, count-last). -/
def createConnectionArguments : List (String × GType) :=
  [("after", .scalar "Cursor"),
   ("before", .scalar "Cursor"),
   ("first", .scalar "Int"),
   ("last", .scalar "Int")]

/-- Modelled from the spec: src/graphQL/connections.js is not under src/.
Spec section 4.3: builds a pagination wrapper type around typeSet.type
conforming to the generic Connection capability (edges/pageInfo shape);
purely structural. The wrapper's name is derived from the wrapped type's
name; no claim depends on the exact name. -/
def createConnection (typeSet : TypeSet) (interfaces : Interfaces) : GObject :=
  { name := typeSet.type.name ++ "Connection",
    interfaces := [interfaces.Connection],
    fieldsSpec := .connectionOf typeSet.type.name }

/-- createType of the source (lines 92-104): builds the object type for one
metadata descriptor. The source closes the lazy fields thunk over
getTypeSet; here the thunk is the data `FieldsSpec.fromMetadata` and the
registry is supplied when the thunk is forced by `getFields`. The source
also receives an interfaces argument that it ignores, so the built object
type declares no interfaces. -/
def createType (type : TypeMetadata) : GObject :=
  { name := type.name,
    interfaces := [],
    fieldsSpec := .fromMetadata type.fields }

/-- The branch part of createField (source lines 115-139): decides the
exposed type, the argument definition and the resolve wiring before the
non-null wrapping is applied.
- connection branch: the condition is literally
  fieldType === connection AND field.has(target);
  the target TypeSet lookup, like every property access on a possibly
  undefined lookup result, throws (Except.error) when the name is absent.
  A registered TypeSet always has its connection by the time any thunk is
  forced (it is attached in pass 1); the impossible missing-connection
  case is mapped to an error as well.
- primitive branch: PRIMITIVE_TYPE_MAP lookup, no arguments, no resolver.
- reference branch: lazy registry lookup of the kind string itself. -/
def createFieldBranch (field : FieldMetadata) (getTypeSet : String → Option TypeSet) :
    Except String (GType × List (String × GType) × Bool) :=
  if field.type == "connection" && field.target.isSome then
    match field.target.bind getTypeSet with
    | none => .error "TypeError: cannot read property connection of undefined"
    | some targetSet =>
      match targetSet.connection with
      | none => .error "connection type missing on target TypeSet"
      | some conn => .ok (.object conn, createConnectionArguments, true)
  else
    match List.lookup field.type PRIMITIVE_TYPE_MAP with
    | some primType => .ok (primType, [], false)
    | none =>
      match getTypeSet field.type with
      | none => .error "TypeError: cannot read property type of undefined"
      | some ts => .ok (.object ts.type, [], true)

/-- createField of the source (lines 115-152): the branch-determined type
is wrapped as non-nullable exactly when isRequired is truthy. -/
def createField (field : FieldMetadata) (getTypeSet : String → Option TypeSet) :
    Except String GField :=
  match createFieldBranch field getTypeSet with
  | .error e => .error e
  | .ok (branchType, argDef, hasRes) =>
    .ok { name := field.name,
          type := if field.isRequired then GType.nonNull branchType else branchType,
          args := argDef,
          hasResolve := hasRes,
          isDeprecated := field.isDeprecated }

/-- Forcing a GraphQLObjectType field-map thunk (type.getFields()).
- fromMetadata: each field descriptor runs through createField keyed by
  its name (source lines 95-103). Metadata field names are unique per the
  data model, so the keyed-map conversion is rendered as an ordered list.
- mutationFieldsOf: the two fields configured by createMutation; the
  source closure captures the payload object type itself, which is exactly
  the registry entry of that name whenever the thunk could be forced.
- connectionOf and externalFields: field maps of externally supplied
  capabilities (connections.js / builtIns.js, not under src/); no
  construction path modelled in this file ever forces them (construction
  aborts before pass 2 whenever common types exist, and createInputObject
  is only applied to the plain object type of a TypeSet), so they are
  modelled opaquely as errors. -/
def getFields (obj : GObject) (getTypeSet : String → Option TypeSet) :
    Except String (List (String × GField)) :=
  match obj.fieldsSpec with
  | .fromMetadata fields =>
    eMapM (fun f =>
      match createField f getTypeSet with
      | .error e => .error e
      | .ok g => .ok (f.name, g)) fields
  | .mutationFieldsOf typeName =>
    match getTypeSet typeName with
    | none => .error "TypeError: cannot read property type of undefined"
    | some ts =>
      .ok [("clientMutationId",
             { name := "clientMutationId", type := .scalar "ID", args := [],
               hasResolve := false, isDeprecated := false }),
           (typeName,
             { name := typeName, type := .object ts.type, args := [],
               hasResolve := false, isDeprecated := false })]
  | .connectionOf _ => .error "externally supplied field map"
  | .externalFields _ => .error "externally supplied field map"

/-- The per-field type test of the input-object keep branch (source lines
178-182): instanceof GraphQLInputObjectType or GraphQLScalarType. -/
def isInputSafe : GType → Bool
  | .scalar _ => true
  | .inputObjectRef _ => true
  | _ => false

/-- The per-field transform of createInputObject (source lines 165-190):
unwrap a single GraphQLList or GraphQLNonNull wrapper; if the unwrapped
type is input-safe keep the original type unchanged, otherwise substitute
the scalar string type, re-applying the very wrapper that was unwrapped
(new parentType.constructor(GraphQLString)). -/
def transformInputFieldType (t : GType) : GType :=
  match t with
  | .list inner =>
    if isInputSafe inner then t else .list (.scalar "String")
  | .nonNull inner =>
    if isInputSafe inner then t else .nonNull (.scalar "String")
  | _ =>
    if isInputSafe t then t else .scalar "String"

/-- The filter predicate of createInputObject (source lines 158-164): drop
the field named id, and drop a field whose exposed type has getInterfaces
(only object types do) listing the Connection interface. The test looks
only at the outermost type value: a wrapped type has no getInterfaces. -/
def keepInInputObject (connectionInterfaceName : String) (name : String) (field : GField) :
    Bool :=
  name != "id" &&
    (match field.type with
     | .object obj => !(obj.interfaces.contains connectionInterfaceName)
     | _ => true)

/-- createInputObject of the source (lines 154-192). The second parameter
destructures the Connection interface: the source seeding call site passes
no second argument, modelled as `none`, which throws before anything else
runs. The getTypeSet argument is the registry against which the field-map
thunk of typeSet.type is forced. -/
def createInputObject (typeSet : TypeSet) (interfaces : Option Interfaces)
    (getTypeSet : String → Option TypeSet) : Except String GInputObject :=
  match interfaces with
  | none => .error "TypeError: cannot destructure property Connection of undefined"
  | some ifc =>
    match getFields typeSet.type getTypeSet with
    | .error e => .error e
    | .ok fields =>
      .ok { name := "_" ++ typeSet.type.name ++ "InputObject",
            fields :=
              (fields.filter (fun p => keepInInputObject ifc.Connection p.1 p.2)).map
                (fun p => (p.1, transformInputFieldType p.2.type)) }

/-- createMutation of the source (lines 194-208): a payload type named
after the object type, declaring the Mutation interface, whose two-field
map (clientMutationId plus a same-named field of the object type) is the
thunk `FieldsSpec.mutationFieldsOf`. -/
def createMutation (typeSet : TypeSet) (interfaces : Interfaces) : GObject :=
  { name := "_" ++ typeSet.type.name ++ "Mutation",
    interfaces := [interfaces.Mutation],
    fieldsSpec := .mutationFieldsOf typeSet.type.name }

/-- The common-type seeding step of createSchema (source lines 35-42): for
every common/built-in type, build a TypeSet carrying the type, its
connection, an input object and a mutation type. The source calls
createInputObject with a single argument there, so the Connection
destructuring throws for every element; the object-literal evaluation
order (connection first, then inputObject, then mutation) is preserved.
The registry function passed on is never consulted because the
destructuring error fires first. -/
def seedCommonTypeSets (interfaces : Interfaces) (commonTypes : List (String × GObject)) :
    Except String Registry :=
  eMapM (fun p =>
    let typeSet : TypeSet := { type := p.2 }
    let connection := createConnection typeSet interfaces
    match createInputObject typeSet none (fun _ => none) with
    | .error e => .error e
    | .ok inputObject =>
      let mutation := createMutation typeSet interfaces
      .ok (p.1, { typeSet with
                    connection := some connection,
                    inputObject := some inputObject,
                    mutation := some mutation })) commonTypes

/-- Pass 1 over the custom metadata (source lines 44-52): build each object
type (lazy field map) and its connection type and insert the TypeSet. -/
def pass1Registry (interfaces : Interfaces) (seeded : Registry)
    (dbMetadata : List TypeMetadata) : Registry :=
  dbMetadata.foldl (fun typeSets typeMetadata =>
    let typeName := typeMetadata.name
    let type := createType typeMetadata
    let typeSet : TypeSet := { type := type }
    let connection := createConnection typeSet interfaces
    setTS typeSets typeName { typeSet with connection := some connection }) seeded

/-- Pass 2 over the registry (source lines 54-59): attach an input object
and a mutation type to every TypeSet. immutable.js Map.map builds the new
map before the typeSets variable is reassigned, so every field-map thunk
forced during this pass observes the pass-1 registry, which is therefore
the lookup passed to createInputObject. -/
def pass2TypeSets (interfaces : Interfaces) (registry : Registry) :
    Except String Registry :=
  eMapM (fun p =>
    match createInputObject p.2 (some interfaces) (lookupTS registry) with
    | .error e => .error e
    | .ok inputObject =>
      let mutation := createMutation p.2 interfaces
      .ok (p.1, { p.2 with
                    inputObject := some inputObject,
                    mutation := some mutation })) registry

/-- The registry-construction portion of createSchema (source lines 34-59):
seeding of the common types, pass 1 over the custom metadata, then pass 2
over the whole registry. -/
def createSchemaTypeSets (commonTypes : List (String × GObject))
    (dbMetadata : List TypeMetadata) : Except String Registry :=
  match seedCommonTypeSets createInterfaces commonTypes with
  | .error e => .error e
  | .ok seeded =>
    pass2TypeSets createInterfaces (pass1Registry createInterfaces seeded dbMetadata)

/-- A root Query or Mutation object type with its eagerly assembled
field map. -/
structure RootType where
  name : String
  fields : List (String × GField)

/-- The GraphQLSchema value returned by createSchema: the two root types. -/
structure GSchema where
  query : RootType
  mutation : RootType

/-- The first argument of createSchema: common types and root-field
configuration. The per-type root-field creators are external collaborator
functions; each family is modelled as one function from the finished
registry to root fields. -/
structure SchemaConfig where
  commonTypes : List (String × GObject)
  commonQueryFields : List (String × GField)
  commonMutationFields : List (String × GField)
  typeQueryFieldCreators : Registry → List (String × GField)
  typeMutationFieldCreators : Registry → List (String × GField)

/-- Modelled from the spec: src/graphQL/createRootFieldsForTypes.js is not
under src/. Spec sections 2 and 4.7 describe it as a thin aggregation step
applying externally supplied per-type generator functions to the finished
registry. -/
def createRootFieldsForTypes (creators : Registry → List (String × GField))
    (typeSets : Registry) : List (String × GField) :=
  creators typeSets

/-- immutable.js Map.merge for the root field maps: entries of the second
map override same-named entries of the first. -/
def mergeFields (a b : List (String × GField)) : List (String × GField) :=
  a.filter (fun p => (List.lookup p.1 b).isNone) ++ b

/-- createSchema of the source (lines 27-84): build the registry in two
passes, assemble the root field maps, and return the schema of the two
root types _Query and _Mutation. -/
def createSchema (config : SchemaConfig) (dbMetadata : List TypeMetadata) :
    Except String GSchema :=
  match createSchemaTypeSets config.commonTypes dbMetadata with
  | .error e => .error e
  | .ok typeSets =>
    .ok { query :=
            { name := "_Query",
              fields := mergeFields config.commonQueryFields
                (createRootFieldsForTypes config.typeQueryFieldCreators typeSets) },
          mutation :=
            { name := "_Mutation",
              fields := mergeFields config.commonMutationFields
                (createRootFieldsForTypes config.typeMutationFieldCreators typeSets) } }

/-- Projection used by concrete statements: the input object attached to a
named TypeSet of a finished construction, when construction succeeded. -/
def getInputObjectOf (result : Except String Registry) (name : String) :
    Option GInputObject :=
  match result with
  | .error _ => none
  | .ok reg => (lookupTS reg name).bind (fun ts => ts.inputObject)

/-! Concrete fixtures used by witnesses and counterexamples. -/

/-- An externally supplied common/built-in object type. -/
def userCommonType : GObject :=
  { name := "User", interfaces := [], fieldsSpec := .externalFields "User" }

/-- A configuration with one common type and no root fields. -/
def cfgWithCommon : SchemaConfig :=
  { commonTypes := [("User", userCommonType)],
    commonQueryFields := [],
    commonMutationFields := [],
    typeQueryFieldCreators := fun _ => [],
    typeMutationFieldCreators := fun _ => [] }

/-- The same configuration with no common types. -/
def cfgNoCommon : SchemaConfig :=
  { cfgWithCommon with commonTypes := [] }

/-- An Author descriptor whose connection field names its target but omits
reverseName. -/
def authorNoReverse : TypeMetadata :=
  { name := "Author",
    fields := [{ name := "id", type := "id", isRequired := true },
               { name := "name", type := "string", isRequired := true },
               { name := "books", type := "connection", target := some "Book",
                 reverseName := none }] }

/-- An Author descriptor whose connection field omits target. -/
def authorNoTarget : TypeMetadata :=
  { name := "Author",
    fields := [{ name := "books", type := "connection", target := none,
                 reverseName := some "authorId" }] }

/-- A Book descriptor with primitive fields only. -/
def bookMeta : TypeMetadata :=
  { name := "Book",
    fields := [{ name := "id", type := "id", isRequired := true },
               { name := "title", type := "string", isRequired := true }] }

/-- An Author descriptor with primitive fields only (no connection). -/
def authorPlainMeta : TypeMetadata :=
  { name := "Author",
    fields := [{ name := "id", type := "id", isRequired := true },
               { name := "name", type := "string" }] }

/-- A Book descriptor with a required reference field to Author. -/
def bookRefMeta : TypeMetadata :=
  { name := "Book",
    fields := [{ name := "id", type := "id", isRequired := true },
               { name := "author", type := "Author", isRequired := true }] }

/-- The built object type of the Book fixture. -/
def bookObj : GObject := createType bookMeta

/-- The connection type of the Book fixture. -/
def bookConnection : GObject := createConnection { type := bookObj } createInterfaces

/-- The pass-1 TypeSet of the Book fixture. -/
def bookTypeSet : TypeSet := { type := bookObj, connection := some bookConnection }

/-- A one-entry registry holding the Book fixture. -/
def regBook : Registry := [("Book", bookTypeSet)]

/-! Helper lemmas shared across claims. -/

/-- Whether a type value is a GraphQLNonNull wrapper. -/
def isNonNullType : GType → Bool
  | .nonNull _ => true
  | _ => false

theorem primitive_lookup_scalar (s : String) (t : GType)
    (h : List.lookup s PRIMITIVE_TYPE_MAP = some t) :
    ∃ nm, t = GType.scalar nm := by
  simp only [PRIMITIVE_TYPE_MAP, List.lookup] at h
  repeat' split at h
  all_goals simp_all
  all_goals exact ⟨_, h.symm⟩

theorem createFieldBranch_not_nonNull (f : FieldMetadata)
    (getTS : String → Option TypeSet) (t : GType) (a : List (String × GType)) (r : Bool)
    (h : createFieldBranch f getTS = .ok (t, a, r)) : isNonNullType t = false := by
  unfold createFieldBranch at h
  split at h
  · split at h
    · exact absurd h (by simp)
    · split at h
      · exact absurd h (by simp)
      · simp only [Except.ok.injEq, Prod.mk.injEq] at h
        rw [← h.1]; rfl
  · split at h
    · rename_i prim hprim
      simp only [Except.ok.injEq, Prod.mk.injEq] at h
      obtain ⟨nm, hnm⟩ := primitive_lookup_scalar f.type prim hprim
      rw [← h.1, hnm]; rfl
    · split at h
      · exact absurd h (by simp)
      · simp only [Except.ok.injEq, Prod.mk.injEq] at h
        rw [← h.1]; rfl

theorem createFieldBranch_isRequired (f : FieldMetadata) (b : Bool)
    (getTS : String → Option TypeSet) :
    createFieldBranch { f with isRequired := b } getTS = createFieldBranch f getTS := rfl

theorem eMapM_nil {α β : Type} (g : α → Except String β) : eMapM g [] = .ok [] := rfl

theorem eMapM_cons {α β : Type} (g : α → Except String β) (a : α) (l : List α) :
    eMapM g (a :: l) =
      match g a with
      | .error e => .error e
      | .ok b =>
        match eMapM g l with
        | .error e => .error e
        | .ok bs => .ok (b :: bs) := rfl

theorem eMapM_error_of_mem {α β : Type} (g : α → Except String β) :
    ∀ {l : List α} {a : α}, a ∈ l → ∀ {e : String}, g a = .error e →
      ∃ e', eMapM g l = .error e' := by
  intro l
  induction l with
  | nil => intro a ha; exact absurd ha (List.not_mem_nil a)
  | cons x xs ih =>
    intro a ha e he
    rcases List.mem_cons.mp ha with h | h
    · subst h
      exact ⟨e, by rw [eMapM_cons, he]⟩
    · rcases hx : g x with ex | bx
      · exact ⟨ex, by rw [eMapM_cons, hx]⟩
      · obtain ⟨e', he'⟩ := ih h he
        exact ⟨e', by rw [eMapM_cons, hx, he']⟩

theorem eMapM_ok_forall {α β : Type} (g : α → Except String β) :
    ∀ {l : List α} {l' : List β}, eMapM g l = .ok l' → ∀ a ∈ l, ∃ b, g a = .ok b := by
  intro l
  induction l with
  | nil => intro l' _ a ha; exact absurd ha (List.not_mem_nil a)
  | cons x xs ih =>
    intro l' hok a ha
    rw [eMapM_cons] at hok
    rcases hx : g x with ex | bx
    · rw [hx] at hok; exact absurd hok (by simp)
    · rw [hx] at hok
      rcases hxs : eMapM g xs with ex2 | bs
      · rw [hxs] at hok; exact absurd hok (by simp)
      · rcases List.mem_cons.mp ha with h | h
        · subst h; exact ⟨bx, hx⟩
        · exact ih hxs a h

theorem eMapM_ok_mem {α β : Type} (g : α → Except String β) :
    ∀ {l : List α} {l' : List β}, eMapM g l = .ok l' → ∀ b ∈ l', ∃ a ∈ l, g a = .ok b := by
  intro l
  induction l with
  | nil =>
    intro l' hok b hb
    rw [eMapM_nil] at hok
    simp only [Except.ok.injEq] at hok
    rw [← hok] at hb
    exact absurd hb (List.not_mem_nil b)
  | cons x xs ih =>
    intro l' hok b hb
    rw [eMapM_cons] at hok
    rcases hx : g x with ex | bx
    · rw [hx] at hok; exact absurd hok (by simp)
    · rw [hx] at hok
      rcases hxs : eMapM g xs with ex2 | bs
      · rw [hxs] at hok; exact absurd hok (by simp)
      · rw [hxs] at hok
        simp only [Except.ok.injEq] at hok
        rw [← hok] at hb
        rcases List.mem_cons.mp hb with h | h
        · subst h; exact ⟨x, List.mem_cons_self x xs, hx⟩
        · obtain ⟨a, ha, hga⟩ := ih hxs b h
          exact ⟨a, List.mem_cons_of_mem x ha, hga⟩

theorem lookupTS_mem {reg : Registry} {n : String} {ts : TypeSet}
    (h : lookupTS reg n = some ts) : ∃ p ∈ reg, p.2 = ts := by
  unfold lookupTS at h
  rcases hf : reg.find? (fun p => p.1 == n) with _ | p
  · rw [hf] at h; exact absurd h (by simp)
  · rw [hf] at h
    simp only [Option.map_some'] at h
    exact ⟨p, List.mem_of_find?_eq_some hf, by injection h⟩

theorem map_fst_filter (q : String → Bool) :
    ∀ l : List (String × GField),
      (l.filter (fun p => q p.1)).map Prod.fst = (l.map Prod.fst).filter q
  | [] => rfl
  | x :: xs => by
    by_cases hq : q x.1
    · simp [List.filter_cons, hq, map_fst_filter q xs]
    · simp [List.filter_cons, hq, map_fst_filter q xs]

theorem createField_ok (f : FieldMetadata) (getTS : String → Option TypeSet) (g : GField)
    (hok : createField f getTS = .ok g) :
    ∃ t a r, createFieldBranch f getTS = .ok (t, a, r) ∧
      g = { name := f.name, type := if f.isRequired then GType.nonNull t else t,
            args := a, hasResolve := r, isDeprecated := f.isDeprecated } := by
  unfold createField at hok
  rcases hb : createFieldBranch f getTS with e | ⟨t, a, r⟩
  · rw [hb] at hok; exact absurd hok (by simp)
  · rw [hb] at hok
    simp only [Except.ok.injEq] at hok
    exact ⟨t, a, r, rfl, hok.symm⟩

/-! Claim theorems. -/

/-- Claim C1 (code_bug evidence): the claim states that pass 1 seeds the
registry with TypeSets carrying only the object and connection types and
that no pass-2 logic runs before every pass-1 entry exists; the code
instead invokes createInputObject (pass-2 logic) inside the common-type
seeding loop, and does so without the interfaces argument, so construction
throws for any non-empty commonTypes before a single custom descriptor is
processed (the error does not depend on dbMetadata). -/
theorem claim_C1_code_bug (dbMetadata : List TypeMetadata) :
    createSchemaTypeSets [("User", userCommonType)] dbMetadata =
      .error "TypeError: cannot destructure property Connection of undefined" := rfl

/-- Claim C2: for every configuration with a non-empty commonTypes
collection, createSchema throws during the initial seeding step (the
single-argument createInputObject call destructures Connection from
undefined) regardless of the custom metadata; with empty commonTypes and
no custom metadata, createSchema completes normally. -/
theorem claim_C2 (config : SchemaConfig) (dbMetadata : List TypeMetadata) :
    (config.commonTypes ≠ [] →
      createSchema config dbMetadata =
        .error "TypeError: cannot destructure property Connection of undefined") ∧
    (config.commonTypes = [] → isOkResult (createSchema config []) = true) := by
  constructor
  · intro h
    rcases hc : config.commonTypes with _ | ⟨⟨n, t⟩, rest⟩
    · exact absurd hc h
    · simp [createSchema, createSchemaTypeSets, seedCommonTypeSets, eMapM,
            createInputObject, hc]
  · intro h
    have hts : createSchemaTypeSets config.commonTypes [] = .ok [] := by
      rw [h]; rfl
    simp [createSchema, hts, isOkResult]

/-- Witness for claim C2 at a concrete configuration with one common type
and at a concrete configuration with none. -/
theorem claim_C2_witness :
    createSchema cfgWithCommon [] =
      .error "TypeError: cannot destructure property Connection of undefined" ∧
    isOkResult (createSchema cfgNoCommon []) = true :=
  ⟨(claim_C2 cfgWithCommon []).1 (by decide), (claim_C2 cfgNoCommon []).2 rfl⟩

/-- Claim C3 counterexample: the claim states that omitting reverseName on
a connection field is a fatal error detected at schema-construction time;
on the code, a connection field with a target but no reverseName builds
without any error (reverseName is only read inside the resolve closure at
request time), so construction succeeds. -/
theorem claim_C3_counterexample :
    isOkResult (createSchemaTypeSets [] [authorNoReverse, bookMeta]) = true := rfl

/-- Claim C3 as amended: omitting target on a connection field is fatal at
schema-construction time (the field falls through to the reference-lookup
branch, which fails during lazy field-map evaluation in pass 2), but
omitting reverseName alone is not detected at construction time: the field
compiles and construction succeeds, the missing reverseName surfacing only
in per-request resolution. -/
theorem claim_C3_amended :
    createSchemaTypeSets [] [authorNoTarget] =
      .error "TypeError: cannot read property type of undefined" ∧
    isOkResult (createSchemaTypeSets [] [authorNoReverse, bookMeta]) = true ∧
    isOkResult (createField
        { name := "books", type := "connection", target := some "Book",
          reverseName := none }
        (lookupTS (pass1Registry createInterfaces [] [authorNoReverse, bookMeta]))) =
      true :=
  ⟨rfl, rfl, rfl⟩

/-- Claim C4 counterexample: the claim states that the string substitution
drops an original non-null wrapper; on the code, deriving the input object
for a Book type whose author field is a required reference to Author
yields an input field of type non-null String, not bare String (the
wrapper is re-applied by new parentType.constructor(GraphQLString)). -/
theorem claim_C4_counterexample :
    getInputObjectOf (createSchemaTypeSets [] [authorPlainMeta, bookRefMeta]) "Book" =
      some { name := "_BookInputObject",
             fields := [("author", .nonNull (.scalar "String"))] } ∧
    GType.nonNull (.scalar "String") ≠ GType.scalar "String" :=
  ⟨rfl, by decide⟩

/-- Claim C4 as amended: for a kept input-object field whose underlying
type after unwrapping a single list or non-null wrapper is neither a
scalar nor an input object, the scalar string type is substituted with the
original outer wrapper preserved as-is: a list wrapper stays a list
wrapper and a non-null wrapper stays a non-null wrapper (it is re-applied
around String, not dropped). -/
theorem claim_C4 (inner : GType) (h : isInputSafe inner = false) :
    transformInputFieldType (.list inner) = .list (.scalar "String") ∧
    transformInputFieldType (.nonNull inner) = .nonNull (.scalar "String") := by
  simp [transformInputFieldType, h]

/-- Witness for claim C4 at a concrete object-typed inner type. -/
theorem claim_C4_witness :
    isInputSafe (.object (createType authorPlainMeta)) = false ∧
    transformInputFieldType (.list (.object (createType authorPlainMeta))) =
      .list (.scalar "String") ∧
    transformInputFieldType (.nonNull (.object (createType authorPlainMeta))) =
      .nonNull (.scalar "String") :=
  ⟨rfl, (claim_C4 (.object (createType authorPlainMeta)) rfl).1,
    (claim_C4 (.object (createType authorPlainMeta)) rfl).2⟩

/-- Claim C7: whenever createField succeeds, if isRequired is true the
compiled field's exposed type is the branch-determined type wrapped as
non-nullable (the same compilation with isRequired false yields the same
field with the unwrapped type, whichever branch applied), and if
isRequired is false no non-null wrapper is applied. -/
theorem claim_C7 (f : FieldMetadata) (getTS : String → Option TypeSet) (g : GField)
    (hok : createField f getTS = .ok g) :
    (f.isRequired = true →
      ∃ u, g.type = GType.nonNull u ∧
        createField { f with isRequired := false } getTS = .ok { g with type := u }) ∧
    (f.isRequired = false → isNonNullType g.type = false) := by
  unfold createField at hok
  rcases hb : createFieldBranch f getTS with e | ⟨t, a, r⟩
  · rw [hb] at hok; exact absurd hok (by simp)
  · rw [hb] at hok
    simp only [Except.ok.injEq] at hok
    constructor
    · intro hr
      refine ⟨t, ?_, ?_⟩
      · rw [← hok]; simp [hr]
      · unfold createField
        rw [createFieldBranch_isRequired, hb, ← hok]
        simp [hr]
    · intro hr
      rw [← hok]
      simp only [hr, if_false]
      exact createFieldBranch_not_nonNull f getTS t a r hb

/-- A required primitive field fixture. -/
def fReqName : FieldMetadata := { name := "name", type := "string", isRequired := true }

/-- The compiled form of the required primitive field fixture. -/
def gReqName : GField :=
  { name := "name", type := .nonNull (.scalar "String"), args := [],
    hasResolve := false, isDeprecated := false }

/-- Witness for claim C7 at a concrete required field. -/
theorem claim_C7_witness :
    gReqName.type = GType.nonNull (GType.scalar "String") ∧
    createField { fReqName with isRequired := false } (fun _ => none) =
      .ok { gReqName with type := GType.scalar "String" } := by
  obtain ⟨u, hu, hc⟩ := (claim_C7 fReqName (fun _ => none) gReqName rfl).1 rfl
  have hu' : GType.nonNull (GType.scalar "String") = GType.nonNull u := hu
  injection hu' with h
  rw [← h] at hc
  exact ⟨rfl, hc⟩

/-- Claim C9: whenever createField succeeds, a field of kind connection
with a target present compiles to the target TypeSet's connection type
(non-null wrapped when required) with exactly the standard pagination
argument set generated by createConnectionArguments, independent of the
target; a field compiled through the primitive or reference branch (the
connection-branch condition is false) receives an empty argument set. -/
theorem claim_C9 (f : FieldMetadata) (getTS : String → Option TypeSet) (g : GField)
    (hok : createField f getTS = .ok g) :
    (∀ target ts conn, f.type = "connection" → f.target = some target →
        getTS target = some ts → ts.connection = some conn →
        g.args = createConnectionArguments ∧
        g.type = (if f.isRequired then GType.nonNull (.object conn) else .object conn)) ∧
    ((f.type == "connection" && f.target.isSome) = false → g.args = []) := by
  obtain ⟨t, a, r, hb, hg⟩ := createField_ok f getTS g hok
  constructor
  · intro target ts conn h1 h2 h3 h4
    have hbc : createFieldBranch f getTS =
        .ok (.object conn, createConnectionArguments, true) := by
      unfold createFieldBranch
      rw [h1, h2]
      simp [h3, h4]
    rw [hbc] at hb
    simp only [Except.ok.injEq, Prod.mk.injEq] at hb
    rw [hg, ← hb.1, ← hb.2.1]
    exact ⟨rfl, rfl⟩
  · intro hcond
    unfold createFieldBranch at hb
    rw [hcond] at hb
    simp only [Bool.false_eq_true, if_false] at hb
    have ha : a = [] := by
      rcases hl : List.lookup f.type PRIMITIVE_TYPE_MAP with _ | prim
      · rw [hl] at hb
        rcases hg2 : getTS f.type with _ | ts2
        · rw [hg2] at hb; exact absurd hb (by simp)
        · rw [hg2] at hb
          simp only [Except.ok.injEq, Prod.mk.injEq] at hb
          exact hb.2.1.symm
      · rw [hl] at hb
        simp only [Except.ok.injEq, Prod.mk.injEq] at hb
        exact hb.2.1.symm
    rw [hg]
    exact ha

/-- A connection field fixture naming the Book target. -/
def fBooks : FieldMetadata :=
  { name := "books", type := "connection", target := some "Book",
    reverseName := some "authorId" }

/-- The compiled form of the connection field fixture. -/
def gBooks : GField :=
  { name := "books", type := .object bookConnection,
    args := createConnectionArguments, hasResolve := true, isDeprecated := false }

/-- A primitive field fixture. -/
def fTitle : FieldMetadata := { name := "title", type := "string" }

/-- The compiled form of the primitive field fixture. -/
def gTitle : GField :=
  { name := "title", type := .scalar "String", args := [],
    hasResolve := false, isDeprecated := false }

/-- Witness for claim C9 at a concrete connection field over the Book
registry and at a concrete primitive field. -/
theorem claim_C9_witness :
    gBooks.args = createConnectionArguments ∧
    gBooks.type = GType.object bookConnection ∧
    gTitle.args = [] := by
  have h1 := (claim_C9 fBooks (lookupTS regBook) gBooks rfl).1
    "Book" bookTypeSet bookConnection rfl rfl (by decide) rfl
  have h2 := (claim_C9 fTitle (lookupTS regBook) gTitle rfl).2 (by decide)
  exact ⟨h1.1, h1.2, h2⟩

/-- Claim C10: the input-object filter tests the Connection interface only
on the outermost exposed type. A connection field compiled with isRequired
true has exposed type NonNull of the connection type, so it passes the
filter (it is NOT dropped) and the transform keeps it as NonNull of
String; the same field value with the bare (not non-null-wrapped)
connection type is dropped by the filter. -/
theorem claim_C10 (f : FieldMetadata) (getTS : String → Option TypeSet) (g : GField)
    (target : String) (ts : TypeSet) (conn : GObject) (ifc : Interfaces)
    (hty : f.type = "connection") (htg : f.target = some target)
    (hts : getTS target = some ts) (hconn : ts.connection = some conn)
    (hreq : f.isRequired = true) (hname : (f.name != "id") = true)
    (hci : conn.interfaces.contains ifc.Connection = true)
    (hok : createField f getTS = .ok g) :
    keepInInputObject ifc.Connection f.name g = true ∧
    transformInputFieldType g.type = GType.nonNull (.scalar "String") ∧
    keepInInputObject ifc.Connection f.name { g with type := .object conn } = false := by
  have hg : g = { name := f.name, type := .nonNull (.object conn),
                  args := createConnectionArguments, hasResolve := true,
                  isDeprecated := f.isDeprecated } := by
    unfold createField createFieldBranch at hok
    rw [hty, htg] at hok
    simp [hts, hconn, hreq] at hok
    exact hok.symm
  subst hg
  refine ⟨?_, ?_, ?_⟩
  · simp [keepInInputObject, hname]
  · simp [transformInputFieldType, isInputSafe]
  · show (f.name != "id" && !(conn.interfaces.contains ifc.Connection)) = false
    rw [hci]
    simp

/-- A required connection field fixture naming the Book target. -/
def fBooksRequired : FieldMetadata :=
  { name := "books", type := "connection", isRequired := true,
    target := some "Book", reverseName := some "authorId" }

/-- The compiled form of the required connection field fixture. -/
def gBooksRequired : GField :=
  { name := "books", type := .nonNull (.object bookConnection),
    args := createConnectionArguments, hasResolve := true, isDeprecated := false }

/-- Witness for claim C10 at a concrete required connection field. -/
theorem claim_C10_witness :
    keepInInputObject createInterfaces.Connection fBooksRequired.name gBooksRequired =
      true ∧
    transformInputFieldType gBooksRequired.type = GType.nonNull (.scalar "String") ∧
    keepInInputObject createInterfaces.Connection fBooksRequired.name
      { gBooksRequired with type := .object bookConnection } = false :=
  claim_C10 fBooksRequired (lookupTS regBook) gBooksRequired
    "Book" bookTypeSet bookConnection createInterfaces
    rfl rfl (by decide) rfl rfl (by decide) (by decide) rfl

theorem createField_keep (f : FieldMetadata) (getTS : String → Option TypeSet)
    (gf : GField) (connName : String) (n : String)
    (hok : createField f getTS = .ok gf)
    (hnc : (f.type == "connection") = false)
    (hreg : ∀ s ts, getTS s = some ts → ts.type.interfaces = []) :
    keepInInputObject connName n gf = (n != "id") := by
  obtain ⟨t, a, r, hb, hg⟩ := createField_ok f getTS gf hok
  have ht : ∀ o, t = .object o → o.interfaces = [] := by
    intro o hto
    unfold createFieldBranch at hb
    rw [hnc] at hb
    simp only [Bool.false_and, Bool.false_eq_true, if_false] at hb
    rcases hl : List.lookup f.type PRIMITIVE_TYPE_MAP with _ | prim
    · rw [hl] at hb
      rcases hg2 : getTS f.type with _ | ts2
      · rw [hg2] at hb; exact absurd hb (by simp)
      · rw [hg2] at hb
        simp only [Except.ok.injEq, Prod.mk.injEq] at hb
        have : GType.object ts2.type = .object o := by rw [← hto, hb.1]
        injection this with h2
        rw [← h2]
        exact hreg f.type ts2 hg2
    · rw [hl] at hb
      simp only [Except.ok.injEq, Prod.mk.injEq] at hb
      obtain ⟨nm, hnm⟩ := primitive_lookup_scalar f.type prim hl
      rw [hto, hnm] at hb
      exact absurd hb.1 (by simp)
  rw [hg]
  rcases hR : f.isRequired with _ | _
  · cases t with
    | object o => simp [keepInInputObject, hR, ht o rfl]
    | scalar s => simp [keepInInputObject, hR]
    | inputObjectRef s => simp [keepInInputObject, hR]
    | list u => simp [keepInInputObject, hR]
    | nonNull u => simp [keepInInputObject, hR]
  · simp [keepInInputObject, hR]

/-- Claim C6: for every TypeMetadata none of whose fields has kind
connection, evaluated against a registry of types that declare no
interfaces (every registry entry built by pass 1 does not), the derived
input object keeps exactly the evaluated object fields minus those named
id: its field-name list equals the object field-name list filtered of
id and nothing else. -/
theorem claim_C6 (m : TypeMetadata) (reg : Registry) (ifc : Interfaces) (ts : TypeSet)
    (flds : List (String × GField))
    (hts : ts.type = createType m)
    (hnc : ∀ f ∈ m.fields, (f.type == "connection") = false)
    (hreg : ∀ p ∈ reg, p.2.type.interfaces = [])
    (hok : getFields ts.type (lookupTS reg) = .ok flds) :
    ∃ io, createInputObject ts (some ifc) (lookupTS reg) = .ok io ∧
      io.fields.map Prod.fst = (flds.map Prod.fst).filter (fun n => n != "id") := by
  have hio : createInputObject ts (some ifc) (lookupTS reg) = .ok
      { name := "_" ++ ts.type.name ++ "InputObject",
        fields := (flds.filter (fun p => keepInInputObject ifc.Connection p.1 p.2)).map
          (fun p => (p.1, transformInputFieldType p.2.type)) } := by
    unfold createInputObject
    rw [hok]
  refine ⟨_, hio, ?_⟩
  have hkeep : ∀ p ∈ flds,
      keepInInputObject ifc.Connection p.1 p.2 = (fun p : String × GField => p.1 != "id") p := by
    intro p hp
    rw [hts] at hok
    unfold getFields createType at hok
    obtain ⟨fm, hfm, hgm⟩ := eMapM_ok_mem _ hok p hp
    rcases hcf : createField fm (lookupTS reg) with e | gf
    · rw [hcf] at hgm; exact absurd hgm (by simp)
    · rw [hcf] at hgm
      simp only [Except.ok.injEq] at hgm
      rw [← hgm]
      exact createField_keep fm (lookupTS reg) gf ifc.Connection fm.name hcf (hnc fm hfm)
        (fun s ts' hl => by
          obtain ⟨pr, hpr, hpr2⟩ := lookupTS_mem hl
          rw [← hpr2]
          exact hreg pr hpr)
  rw [List.filter_congr hkeep]
  have hcomp : ((flds.filter (fun p : String × GField => p.1 != "id")).map
      (fun p => (p.1, transformInputFieldType p.2.type))).map Prod.fst =
      (flds.filter (fun p : String × GField => p.1 != "id")).map Prod.fst := by
    rw [List.map_map]
    rfl
  rw [hcomp]
  exact map_fst_filter (fun n => n != "id") flds

/-- Claim C8: for every field whose type string is not connection, not a
primitive kind, and not a key of the pass-1 registry, and whose owning
type is registered, lazy field-map evaluation fails with the unresolved
reference error, and the whole construction fails (pass 2 forces every
field map, so schema building is all-or-nothing and never partially
succeeds). -/
theorem claim_C8 (db : List TypeMetadata) (m : TypeMetadata) (f : FieldMetadata)
    (tsm : TypeSet)
    (hf : f ∈ m.fields)
    (h1 : (f.type == "connection") = false)
    (h2 : List.lookup f.type PRIMITIVE_TYPE_MAP = none)
    (h3 : lookupTS (pass1Registry createInterfaces [] db) f.type = none)
    (h4 : lookupTS (pass1Registry createInterfaces [] db) m.name = some tsm)
    (h5 : tsm.type = createType m) :
    createField f (lookupTS (pass1Registry createInterfaces [] db)) =
      .error "TypeError: cannot read property type of undefined" ∧
    isOkResult (createSchemaTypeSets [] db) = false := by
  have hcf : createField f (lookupTS (pass1Registry createInterfaces [] db)) =
      .error "TypeError: cannot read property type of undefined" := by
    unfold createField createFieldBranch
    rw [h1]
    simp only [Bool.false_and, Bool.false_eq_true, if_false]
    rw [h2, h3]
  refine ⟨hcf, ?_⟩
  rcases hres : createSchemaTypeSets [] db with e | reg'
  · rfl
  · exfalso
    have hres2 : pass2TypeSets createInterfaces (pass1Registry createInterfaces [] db) =
        .ok reg' := hres
    obtain ⟨pr, hpr, hpr2⟩ := lookupTS_mem h4
    obtain ⟨b, hbok⟩ := eMapM_ok_forall _ hres2 pr hpr
    have hgf : ∃ e', getFields pr.2.type
        (lookupTS (pass1Registry createInterfaces [] db)) = .error e' := by
      rw [hpr2, h5]
      show ∃ e', eMapM (fun fm =>
        match createField fm (lookupTS (pass1Registry createInterfaces [] db)) with
        | .error e => .error e
        | .ok g => .ok (fm.name, g)) m.fields = .error e'
      exact eMapM_error_of_mem _ hf (by rw [hcf])
    obtain ⟨e', he'⟩ := hgf
    have hin : createInputObject pr.2 (some createInterfaces)
        (lookupTS (pass1Registry createInterfaces [] db)) = .error e' := by
      unfold createInputObject
      rw [he']
    simp only [hin] at hbok
    exact absurd hbok (by simp)

/-- A one-field type descriptor used for mutual-reference pairs. -/
def mutualType (n fname ftype : String) : TypeMetadata :=
  { name := n, fields := [{ name := fname, type := ftype }] }

/-- The metadata of two types referencing each other through one field
each. -/
def mutualPair (nA nB fa fb : String) : List TypeMetadata :=
  [mutualType nA fa nB, mutualType nB fb nA]

/-- The pass-1 TypeSet built for a mutual-reference descriptor. -/
def mutualTS (n fname ftype : String) : TypeSet :=
  { type := createType (mutualType n fname ftype),
    connection := some (createConnection
      { type := createType (mutualType n fname ftype) } createInterfaces) }

/-- Claim C5: for every pair of descriptors with distinct non-primitive
names where each has a field whose type names the other, schema
construction succeeds, and forcing either object type's deferred field-map
thunk against the registry left by pass 1 yields the other descriptor's
built object type (which is exactly the other's registry entry): no
infinite recursion and no unresolved-reference error. -/
theorem claim_C5 (nA nB fa fb : String) (hab : nA ≠ nB)
    (hpA : List.lookup nA PRIMITIVE_TYPE_MAP = none)
    (hpB : List.lookup nB PRIMITIVE_TYPE_MAP = none) :
    isOkResult (createSchemaTypeSets [] (mutualPair nA nB fa fb)) = true ∧
    getFields (mutualTS nA fa nB).type
        (lookupTS (pass1Registry createInterfaces [] (mutualPair nA nB fa fb))) =
      .ok [(fa, { name := fa, type := .object (mutualTS nB fb nA).type, args := [],
                  hasResolve := true, isDeprecated := false })] ∧
    getFields (mutualTS nB fb nA).type
        (lookupTS (pass1Registry createInterfaces [] (mutualPair nA nB fa fb))) =
      .ok [(fb, { name := fb, type := .object (mutualTS nA fa nB).type, args := [],
                  hasResolve := true, isDeprecated := false })] ∧
    lookupTS (pass1Registry createInterfaces [] (mutualPair nA nB fa fb)) nA =
      some (mutualTS nA fa nB) ∧
    lookupTS (pass1Registry createInterfaces [] (mutualPair nA nB fa fb)) nB =
      some (mutualTS nB fb nA) := by
  have hbeqAB : (nA == nB) = false := beq_eq_false_iff_ne.mpr hab
  have hbeqBA : (nB == nA) = false := beq_eq_false_iff_ne.mpr (Ne.symm hab)
  have hreg : pass1Registry createInterfaces [] (mutualPair nA nB fa fb) =
      [(nA, mutualTS nA fa nB), (nB, mutualTS nB fb nA)] := by
    unfold pass1Registry mutualPair
    simp [setTS, hbeqAB, hab, mutualTS, mutualType]
  have hlA : lookupTS [(nA, mutualTS nA fa nB), (nB, mutualTS nB fb nA)] nA =
      some (mutualTS nA fa nB) := by
    simp [lookupTS, List.find?]
  have hlB : lookupTS [(nA, mutualTS nA fa nB), (nB, mutualTS nB fb nA)] nB =
      some (mutualTS nB fb nA) := by
    simp [lookupTS, List.find?, hbeqAB]
  have hfA : createField { name := fa, type := nB }
      (lookupTS [(nA, mutualTS nA fa nB), (nB, mutualTS nB fb nA)]) =
      .ok { name := fa, type := .object (mutualTS nB fb nA).type, args := [],
            hasResolve := true, isDeprecated := false } := by
    unfold createField createFieldBranch
    simp [hpB, hlB]
  have hfB : createField { name := fb, type := nA }
      (lookupTS [(nA, mutualTS nA fa nB), (nB, mutualTS nB fb nA)]) =
      .ok { name := fb, type := .object (mutualTS nA fa nB).type, args := [],
            hasResolve := true, isDeprecated := false } := by
    unfold createField createFieldBranch
    simp [hpA, hlA]
  have hgfA : getFields (mutualTS nA fa nB).type
      (lookupTS [(nA, mutualTS nA fa nB), (nB, mutualTS nB fb nA)]) =
      .ok [(fa, { name := fa, type := .object (mutualTS nB fb nA).type, args := [],
                  hasResolve := true, isDeprecated := false })] := by
    show eMapM (fun f =>
        match createField f (lookupTS [(nA, mutualTS nA fa nB), (nB, mutualTS nB fb nA)]) with
        | .error e => .error e
        | .ok g => .ok (f.name, g))
      [{ name := fa, type := nB }] =
      .ok [(fa, { name := fa, type := .object (mutualTS nB fb nA).type, args := [],
                  hasResolve := true, isDeprecated := false })]
    simp [eMapM, hfA]
  have hgfB : getFields (mutualTS nB fb nA).type
      (lookupTS [(nA, mutualTS nA fa nB), (nB, mutualTS nB fb nA)]) =
      .ok [(fb, { name := fb, type := .object (mutualTS nA fa nB).type, args := [],
                  hasResolve := true, isDeprecated := false })] := by
    show eMapM (fun f =>
        match createField f (lookupTS [(nA, mutualTS nA fa nB), (nB, mutualTS nB fb nA)]) with
        | .error e => .error e
        | .ok g => .ok (f.name, g))
      [{ name := fb, type := nA }] =
      .ok [(fb, { name := fb, type := .object (mutualTS nA fa nB).type, args := [],
                  hasResolve := true, isDeprecated := false })]
    simp [eMapM, hfB]
  refine ⟨?_, ?_, ?_, ?_, ?_⟩
  · show isOkResult (pass2TypeSets createInterfaces
      (pass1Registry createInterfaces [] (mutualPair nA nB fa fb))) = true
    rw [hreg]
    simp [pass2TypeSets, eMapM, createInputObject, hgfA, hgfB, isOkResult]
  · rw [hreg]; exact hgfA
  · rw [hreg]; exact hgfB
  · rw [hreg]; exact hlA
  · rw [hreg]; exact hlB

/-- Witness for claim C5 at the concrete pair A and B. -/
theorem claim_C5_witness :
    isOkResult (createSchemaTypeSets [] (mutualPair "A" "B" "b" "a")) = true ∧
    getFields (mutualTS "A" "b" "B").type
        (lookupTS (pass1Registry createInterfaces [] (mutualPair "A" "B" "b" "a"))) =
      .ok [("b", { name := "b", type := .object (mutualTS "B" "a" "A").type, args := [],
                   hasResolve := true, isDeprecated := false })] ∧
    getFields (mutualTS "B" "a" "A").type
        (lookupTS (pass1Registry createInterfaces [] (mutualPair "A" "B" "b" "a"))) =
      .ok [("a", { name := "a", type := .object (mutualTS "A" "b" "B").type, args := [],
                   hasResolve := true, isDeprecated := false })] ∧
    lookupTS (pass1Registry createInterfaces [] (mutualPair "A" "B" "b" "a")) "A" =
      some (mutualTS "A" "b" "B") ∧
    lookupTS (pass1Registry createInterfaces [] (mutualPair "A" "B" "b" "a")) "B" =
      some (mutualTS "B" "a" "A") :=
  claim_C5 "A" "B" "b" "a" (by decide) rfl rfl

/-- A Post descriptor whose author field names an unregistered type. -/
def postMeta : TypeMetadata :=
  { name := "Post", fields := [{ name := "author", type := "Userz" }] }

/-- The pass-1 TypeSet of the Post fixture. -/
def postTypeSet : TypeSet :=
  { type := createType postMeta,
    connection := some (createConnection { type := createType postMeta } createInterfaces) }

/-- Witness for claim C8 at a concrete descriptor with a dangling type
reference. -/
theorem claim_C8_witness :
    createField { name := "author", type := "Userz" }
      (lookupTS (pass1Registry createInterfaces [] [postMeta])) =
      .error "TypeError: cannot read property type of undefined" ∧
    isOkResult (createSchemaTypeSets [] [postMeta]) = false :=
  claim_C8 [postMeta] postMeta { name := "author", type := "Userz" } postTypeSet
    (by decide) rfl rfl rfl rfl rfl

/-- The evaluated object fields of the plain Author fixture. -/
def fldsAuthorPlain : List (String × GField) :=
  [("id", { name := "id", type := .nonNull (.scalar "ID"), args := [],
            hasResolve := false, isDeprecated := false }),
   ("name", { name := "name", type := .scalar "String", args := [],
              hasResolve := false, isDeprecated := false })]

/-- Witness for claim C6 at the plain Author fixture over the empty
registry. -/
theorem claim_C6_witness :
    isOkResult (createInputObject { type := createType authorPlainMeta }
      (some createInterfaces) (lookupTS ([] : Registry))) = true := by
  obtain ⟨io, hio, hnames⟩ := claim_C6 authorPlainMeta [] createInterfaces
    { type := createType authorPlainMeta } fldsAuthorPlain rfl (by decide) (by decide) rfl
  rw [hio]
  rfl

end ReindexSchema
